import Mathlib

/-!
Verification development for the `token-bind-tool` command of the bsc
repository (`cmd/token-bind-tool/main.go` and
`cmd/token-bind-tool/utils/const.go`).

The tool is a straight-line CLI driver: every operation is a fixed
sequence of blocking external calls (RPC requests, keystore actions,
hardware-wallet actions) interleaved with console output.  We embed it
shallowly: each external call's outcome is a field of an environment
record, and each Go function becomes a Lean function from that
environment to the list of observable events it produces (console
output lines, error prints, sleeps, and external calls), together with
its Go return value where the Go function returns one.  The event list
makes ordering, abort-on-error behaviour, and the exact arguments of
each submitted transaction provable properties.
-/

namespace TokenBindTool

/-! ## Constants from `cmd/token-bind-tool/utils/const.go` -/

namespace utils

def Passwd : String := "12345678"

def InitKey : String := "initKey"

def RefundRestBNB : String := "refundRestBNB"

def DeployContract : String := "deployContract"

def ApproveBind : String := "approveBindAndTransferOwnership"

def DeployTransferRefund : String := "deploy_transferTokenAndOwnership_refund"

def ApproveBindFromLedger : String := "approveBindFromLedger"

def Mainnet : String := "mainnet"

def TestNet : String := "testnet"

def BindKeystore : String := "bind_keystore"

def TestnetRPC : String := "https://data-seed-prebsc-1-s1.binance.org:8545"

def TestnetChainID : Nat := 97

def MainnnetRPC : String := "https://bsc-dataseed1.binance.org:443"

def MainnetChainID : Nat := 56

end utils

/-- The fixed token-manager system contract address (`main.go` line 33). -/
def tokenManager : String := "0x0000000000000000000000000000000000001008"

/-- The separator line printed between workflow stages (128 dashes). -/
def bannerLine : String := String.mk (List.replicate 128 '-')

/-- The usage string printed by `printUsage` (`main.go` lines 62-64). -/
def usageMessage : String :=
  "usage: ./token-bind-tool --network-type testnet --operation \x7binitKey, deployContract, approveBindAndTransferOwnership, refundRestBNB, deploy_transferTokenAndOwnership_refund, approveBindFromLedger\x7d\n"

/-! ## Observable events

Each external interaction of the Go program is recorded as one event.
A `call` constructor is one call site in the source; its arguments are
the data the call site passes to the outside world. -/

inductive ChainCall where
  | dialRPC (url : String)
  | newKeystoreAccount (passwd : String)
  | unlockAccount (addr : String) (passwd : String)
  | newBep20
  | totalSupply
  | approve (spender : String) (amount : Nat)
  | newTokenManager
  | approveBind (contractAddr : String) (symbol : String)
  | approveBindReceipt
  | rejectBind (contractAddr : String) (symbol : String)
  | rejectBindReceipt
  | newOwnable
  | transferOwnership (newOwner : String)
  | deployBEP20Contract
  | deployReceipt
  | transferToken (recipient : String) (amount : Nat)
  | sendAllRestBNB (recipient : String) (amount : Int)
  | newLedgerHub
  | ledgerClose
  | ledgerOpen
  | ledgerStatus
  | ledgerDerive (path : List Nat)
  | ledgerSendApprove (toAddr : String) (approveAmount : Int)
  | ledgerSendApproveBind (toAddr : String)
deriving DecidableEq, Repr

inductive Ev where
  | out (s : String)
  | errOut (s : String)
  | sleep (seconds : Nat)
  | call (c : ChainCall)
deriving DecidableEq, Repr

/-- `fmt.Println(err.Error()); return` — the error-abort idiom used after
almost every fallible step of `main.go`. -/
def onErr {α : Type} (r : Except String α) (k : α → List Ev) : List Ev :=
  match r with
  | .error e => [.errOut e]
  | .ok a => k a

/-- Modelled from the spec: `utils.PrintTxExplorerUrl` is not under src/;
per the spec it prints the given label together with the block-explorer
transaction URL of the selected network, using the URL formats recorded
in `utils/const.go`. -/
def PrintTxExplorerUrl (label : String) (txHash : String) (chainId : Nat) : Ev :=
  if chainId = utils.MainnetChainID then
    .out (label ++ ": https://bscscan.com/tx/" ++ txHash)
  else
    .out (label ++ ": https://testnet.bscscan.com/tx/" ++ txHash)

/-- Modelled from the spec: `utils.PrintAddrExplorerUrl` is not under src/;
per the spec it prints the given label together with the block-explorer
address URL of the selected network, using the URL formats recorded in
`utils/const.go`. -/
def PrintAddrExplorerUrl (label : String) (addr : String) (chainId : Nat) : Ev :=
  if chainId = utils.MainnetChainID then
    .out (label ++ ": https://bscscan.com/address/" ++ addr)
  else
    .out (label ++ ": https://testnet.bscscan.com/address/" ++ addr)

/-! ## BindConfig and its validation (`main.go` lines 41-103) -/

structure BindConfig where
  ContractData : String
  Symbol : String
  BEP2Symbol : String
  LedgerAccount : String
deriving DecidableEq, Repr

/-- A hexadecimal digit, as accepted by Go's `hex.DecodeString`. -/
def isHexDigit (c : Char) : Bool :=
  c.isDigit || ('a' ≤ c && c ≤ 'f') || ('A' ≤ c && c ≤ 'F')

/-- Go's `hex.DecodeString` succeeds exactly on even-length strings of
hexadecimal digits (stated over the character list so that proofs can
evaluate it). -/
def validHex (s : String) : Bool :=
  s.length % 2 == 0 && s.data.all isHexDigit

/-- Go's `strings.HasPrefix`, via the character lists so that proofs can
evaluate it. -/
def strStartsWith (s p : String) : Bool :=
  p.data.isPrefixOf s.data

/-- `BindConfig.Validate` (`main.go` lines 48-60).  Returns `some msg`
where the Go method returns a non-nil error. -/
def BindConfig.Validate (bindConfig : BindConfig) : Option String :=
  if !validHex bindConfig.ContractData then
    some "invalid contract byte code"
  else if bindConfig.BEP2Symbol.length == 0 then
    some "missing bep2 token symbol"
  else if !strStartsWith bindConfig.LedgerAccount "0x" || bindConfig.LedgerAccount.length != 42 then
    some "invalid ledger account, expect bsc address, like 0x4E656459ed25bF986Eea1196Bc1B00665401645d"
  else
    none

/-- `readConfigData` (`main.go` lines 84-103): file opening, reading and
JSON unmarshalling are abstracted into the `raw` argument; the `Validate`
step is the code's. -/
def readConfigData (raw : Except String BindConfig) : Except String BindConfig :=
  match raw with
  | .error e => .error e
  | .ok config =>
    match config.Validate with
    | some e => .error e
    | none => .ok config

/-- The spec's notion of a well-formed ledger account, stated from the
spec's words for comparison against `BindConfig.Validate`: the string is
`0x` followed by exactly 40 hexadecimal characters. -/
def specWellFormedLedgerAccount (s : String) : Bool :=
  strStartsWith s "0x" && s.length == 42 && (s.data.drop 2).all isHexDigit

/-! ## Temporary-account provisioning (`generateOrGetTempAccount`,
`main.go` lines 105-141)

The keystore directory's contents and the outcomes of the keystore
library calls are the environment; the function returns its event list
and the address of the temporary account (or the error the Go function
returns). -/

structure KeystoreEnv where
  getwdRes : Except String String
  accounts : List String
  newAccountRes : Except String String
  unlockRes : Except String Unit
deriving Repr

def generateOrGetTempAccount (env : KeystoreEnv) (chainId : Nat) :
    List Ev × Except String String :=
  match env.getwdRes with
  | .error e => ([], .error e)
  | .ok path =>
    match env.accounts with
    | [] =>
      match env.newAccountRes with
      | .error e => ([.call (.newKeystoreAccount utils.Passwd)], .error e)
      | .ok newAccount =>
        match env.unlockRes with
        | .error e =>
          ([.call (.newKeystoreAccount utils.Passwd),
            .call (.unlockAccount newAccount utils.Passwd)], .error e)
        | .ok _ =>
          ([.call (.newKeystoreAccount utils.Passwd),
            .call (.unlockAccount newAccount utils.Passwd),
            .out ("Create temp account: " ++ newAccount),
            PrintAddrExplorerUrl ", explorer url" newAccount chainId,
            .out bannerLine], .ok newAccount)
    | [account] =>
      match env.unlockRes with
      | .error e => ([.call (.unlockAccount account utils.Passwd)], .error e)
      | .ok _ =>
        ([.call (.unlockAccount account utils.Passwd),
          .out ("Load temp account: " ++ account),
          PrintAddrExplorerUrl ", explorer url" account chainId,
          .out bannerLine], .ok account)
    | _ =>
      ([], .error ("expect only one or zero keystore file in " ++ path ++ "/" ++ utils.BindKeystore))

/-! ## Hardware-wallet session (`openLedger`, `main.go` lines 143-178) -/

/-- `ledgerBasePath` (`main.go` line 34): `m/44'/60'/0'/0/0`. -/
def ledgerBasePath : List Nat :=
  [0x80000000 + 44, 0x80000000 + 60, 0x80000000 + 0, 0, 0]

/-- The derivation path built by `openLedger` (`main.go` lines 170-172):
a copy of the base path whose hardened account component is increased by
`index`, with `uint32` wrap-around. -/
def derivePath (index : Nat) : List Nat :=
  ledgerBasePath.set 2 ((ledgerBasePath.getD 2 0 + index) % 2 ^ 32)

structure LedgerEnv where
  hubRes : Except String Unit
  wallets : List String
  closeRes : Except String Unit
  openRes : Except String Unit
  statusRes : Except String String
  deriveRes : Except String String
deriving Repr

def openLedger (env : LedgerEnv) (index : Nat) :
    List Ev × Except String (String × String) :=
  match env.hubRes with
  | .error e =>
    ([.call .newLedgerHub], .error ("failed to start Ledger hub, disabling: " ++ e))
  | .ok _ =>
    match env.wallets with
    | [] => ([.call .newLedgerHub], .error "empty ledger wallet")
    | wallet :: _ =>
      let closeEvents : List Ev :=
        match env.closeRes with
        | .error e => [.call .ledgerClose, .errOut e]
        | .ok _ => [.call .ledgerClose]
      match env.openRes with
      | .error e =>
        ([.call .newLedgerHub] ++ closeEvents ++ [.call .ledgerOpen],
         .error ("failed to start Ledger hub, disabling: " ++ e))
      | .ok _ =>
        match env.statusRes with
        | .error e =>
          ([.call .newLedgerHub] ++ closeEvents ++ [.call .ledgerOpen, .call .ledgerStatus],
           .error ("failed to start Ledger hub, disabling: " ++ e))
        | .ok walletStatus =>
          match env.deriveRes with
          | .error e =>
            ([.call .newLedgerHub] ++ closeEvents ++
              [.call .ledgerOpen, .call .ledgerStatus, .out walletStatus,
               .call (.ledgerDerive (derivePath index))],
             .error ("failed to derive account from ledger: " ++ e))
          | .ok ledgerAccount =>
            ([.call .newLedgerHub] ++ closeEvents ++
              [.call .ledgerOpen, .call .ledgerStatus, .out walletStatus,
               .call (.ledgerDerive (derivePath index))],
             .ok (wallet, ledgerAccount))

/-! ## Contract deployment (`DeployContractFromTempAccount`,
`main.go` lines 314-336).  Errors are returned to the caller, which
prints them. -/

structure DeployEnv where
  deployTxRes : Except String Nat
  receiptRes : Except String String
deriving Repr

def DeployContractFromTempAccount (env : DeployEnv) (tempAccount : String)
    (contractByteCodeStr : String) (chainId : Nat) :
    List Ev × Except String String :=
  let hd : Ev := .out ("Deploy BEP20 contract from account " ++ tempAccount)
  if !validHex contractByteCodeStr then
    ([hd], .error "invalid contract byte code hex")
  else
    match env.deployTxRes with
    | .error e => ([hd, .call .deployBEP20Contract], .error e)
    | .ok txHash =>
      match env.receiptRes with
      | .error e =>
        ([hd, .call .deployBEP20Contract,
          PrintTxExplorerUrl "Deploy BEP20 contract txHash" (toString txHash) chainId,
          .sleep 10, .call .deployReceipt], .error e)
      | .ok contractAddr =>
        ([hd, .call .deployBEP20Contract,
          PrintTxExplorerUrl "Deploy BEP20 contract txHash" (toString txHash) chainId,
          .sleep 10, .call .deployReceipt,
          .out ("The deployed BEP20 contract address is " ++ contractAddr),
          PrintAddrExplorerUrl ", explorer url" contractAddr chainId,
          .out bannerLine], .ok contractAddr)

/-! ## The approve-bind workflow
(`ApproveBindAndTransferOwnershipAndRestBalanceBackToLedgerAccount`,
`main.go` lines 338-410).  This function prints its own errors and
returns nothing. -/

structure BindEnv where
  newBep20Res : Except String Unit
  totalSupplyRes : Except String Nat
  approveRes : Except String Nat
  approveBindRes : Except String Nat
  approveBindReceiptRes : Except String Nat
  rejectBindRes : Except String Nat
  rejectBindReceiptRes : Except String Nat
  newOwnableRes : Except String Unit
  transferOwnershipRes : Except String Nat
deriving Repr

def ApproveBindAndTransferOwnershipAndRestBalanceBackToLedgerAccount
    (env : BindEnv) (configData : BindConfig) (tempAccount : String)
    (bep20ContractAddr : String) (chainId : Nat) : List Ev :=
  .call .newBep20 :: onErr env.newBep20Res fun _ =>
  .call .totalSupply :: onErr env.totalSupplyRes fun totalSupply =>
  .out ("Total Supply " ++ toString totalSupply) ::
  .out ("Approve " ++ toString totalSupply ++ ":" ++ configData.Symbol ++
        " to TokenManager from " ++ tempAccount) ::
  .call (.approve tokenManager totalSupply) :: onErr env.approveRes fun approveTxHash =>
  PrintTxExplorerUrl "Approve token to tokenManager txHash" (toString approveTxHash) chainId ::
  .sleep 20 ::
  .call .newTokenManager ::
  .call (.approveBind bep20ContractAddr configData.BEP2Symbol) ::
  onErr env.approveBindRes fun approveBindTx =>
  PrintTxExplorerUrl "ApproveBind txHash" (toString approveBindTx) chainId ::
  .sleep 10 ::
  .call .approveBindReceipt :: onErr env.approveBindReceiptRes fun status =>
  .out "Track approveBind Tx status" ::
  (if status ≠ 1 then
    .out "Approve Bind Failed" ::
    .call (.rejectBind bep20ContractAddr configData.BEP2Symbol) ::
    onErr env.rejectBindRes fun rejectBindTx =>
    PrintTxExplorerUrl "RejectBind txHash" (toString rejectBindTx) chainId ::
    .sleep 10 ::
    .out "Track rejectBind Tx status" ::
    .call .rejectBindReceipt :: onErr env.rejectBindReceiptRes fun rejectStatus =>
    [.out ("reject bind tx recipient status " ++ toString rejectStatus)]
  else
    .sleep 10 ::
    .call .newOwnable :: onErr env.newOwnableRes fun _ =>
    .out ("Transfer ownership " ++ toString totalSupply ++ " " ++ configData.Symbol ++
          " to ledger account " ++ tempAccount) ::
    .call (.transferOwnership configData.LedgerAccount) ::
    onErr env.transferOwnershipRes fun transferOwnerShipTxHash =>
    [PrintTxExplorerUrl "Transfer ownership txHash" (toString transferOwnerShipTxHash) chainId,
     .out bannerLine])

/-! ## Token-and-ownership transfer (`TransferTokenAndOwnership`,
`main.go` lines 446-482).  Prints its own errors, returns nothing. -/

structure TransferEnv where
  newBep20Res : Except String Unit
  totalSupplyRes : Except String Nat
  transferRes : Except String Nat
  newOwnableRes : Except String Unit
  transferOwnershipRes : Except String Nat
deriving Repr

def TransferTokenAndOwnership (env : TransferEnv) (tokenOwner : String)
    (_bep20ContractAddr : String) (chainId : Nat) : List Ev :=
  .call .newBep20 :: onErr env.newBep20Res fun _ =>
  .call .totalSupply :: onErr env.totalSupplyRes fun totalSupply =>
  .out ("Total Supply " ++ toString totalSupply) ::
  .out ("Transfer " ++ toString totalSupply ++ " token to " ++ tokenOwner) ::
  .call (.transferToken tokenOwner totalSupply) :: onErr env.transferRes fun transferTxHash =>
  PrintTxExplorerUrl "Transfer token txHash" (toString transferTxHash) chainId ::
  .sleep 10 ::
  .call .newOwnable :: onErr env.newOwnableRes fun _ =>
  .out ("Transfer ownership to " ++ tokenOwner) ::
  .call (.transferOwnership tokenOwner) :: onErr env.transferOwnershipRes fun t =>
  [PrintTxExplorerUrl "Transfer ownership txHash" (toString t) chainId,
   .out bannerLine]

/-! ## Refund (`RefundRestBNB`, `main.go` lines 484-492)

Note the source's error branch does not return: after printing the error
it still prints the explorer-url line (with the zero transaction hash)
and the separator. -/

/-- Modelled from the spec: `utils.SendAllRestBNB` is not under src/; per
the spec it computes the temporary account's spendable native-currency
balance after reserving the gas cost and sends that amount to the refund
address, failing rather than sending a negative amount. -/
def sendAllRestBNBAmount (balance : Int) (gasReserve : Int) : Except String Int :=
  if balance - gasReserve < 0 then .error "insufficient balance to refund"
  else .ok (balance - gasReserve)

structure RefundEnv where
  balance : Int
  gasReserve : Int
  sendRes : Except String Nat
deriving Repr

def RefundRestBNB (env : RefundEnv) (refundAddr : String) (chainId : Nat) : List Ev :=
  .sleep 10 ::
  (match sendAllRestBNBAmount env.balance env.gasReserve with
   | .error e =>
     [.errOut e,
      PrintTxExplorerUrl "Refund txHash" (toString (0 : Nat)) chainId,
      .out bannerLine]
   | .ok amount =>
     .call (.sendAllRestBNB refundAddr amount) ::
     (match env.sendRes with
      | .error e =>
        [.errOut e,
         PrintTxExplorerUrl "Refund txHash" (toString (0 : Nat)) chainId,
         .out bannerLine]
      | .ok txHash =>
        [PrintTxExplorerUrl "Refund txHash" (toString txHash) chainId,
         .out bannerLine]))

/-! ## Ledger-signed approve/bind (`ApproveBind`, `main.go` lines 412-444).
Prints its own errors, returns nothing. -/

structure LedgerBindEnv where
  packApproveRes : Except String Unit
  sendApproveRes : Except String Nat
  packApproveBindRes : Except String Unit
  sendApproveBindRes : Except String Nat
deriving Repr

def ApproveBind (env : LedgerBindEnv) (_bep2Symbol : String)
    (bep20ContractAddr : String) (peggyAmount : Int) (chainId : Nat) : List Ev :=
  .out ("Approve " ++ toString peggyAmount ++ ":" ++ tokenManager ++
        " to TokenManager from %!s(MISSING)") ::
  onErr env.packApproveRes fun _ =>
  .call (.ledgerSendApprove bep20ContractAddr peggyAmount) ::
  onErr env.sendApproveRes fun approveTx =>
  PrintTxExplorerUrl "Approve token to tokenManager txHash" (toString approveTx) chainId ::
  .sleep 20 ::
  onErr env.packApproveBindRes fun _ =>
  .call (.ledgerSendApproveBind tokenManager) ::
  onErr env.sendApproveBindRes fun approveBindTx =>
  [PrintTxExplorerUrl "ApproveBind txHash" (toString approveBindTx) chainId,
   .out bannerLine]

/-! ## The `main` dispatch (`main.go` lines 180-312) -/

/-- The numeric value of a non-empty list of decimal digits. -/
def digitsVal (l : List Char) : Option Nat :=
  match l with
  | [] => none
  | _ =>
    if l.all Char.isDigit then
      some (l.foldl (fun acc c => acc * 10 + (c.toNat - Char.toNat '0')) 0)
    else
      none

/-- Go's `big.Int.SetString` in base 10 (an optional sign followed by
decimal digits), over the character list so that proofs can evaluate
it. -/
def strToInt (s : String) : Option Int :=
  match s.data with
  | '-' :: rest => (digitsVal rest).map fun n => -(n : Int)
  | '+' :: rest => (digitsVal rest).map fun n => (n : Int)
  | l => (digitsVal l).map fun n => (n : Int)

/-- The command-line flags consumed by `main`. -/
structure Flags where
  networkType : String
  operation : String
  bep20ContractAddr : String
  ledgerAccount : String
  ledgerAccountIndex : Nat
  peggyAmount : String
deriving Repr

/-- Replace the operation flag, keeping the rest. -/
def setOp (flags : Flags) (operation : String) : Flags :=
  ⟨flags.networkType, operation, flags.bep20ContractAddr, flags.ledgerAccount,
   flags.ledgerAccountIndex, flags.peggyAmount⟩

structure MainEnv where
  dialRes : Except String Unit
  configRaw : Except String BindConfig
  ks : KeystoreEnv
  deploy : DeployEnv
  bind : BindEnv
  transfer : TransferEnv
  refund : RefundEnv
  ledger : LedgerEnv
  ledgerBind : LedgerBindEnv
deriving Repr

/-- The network check and selection at `main.go` lines 186-207: `none`
means `printUsage(); return`; otherwise the RPC endpoint dialled and the
chain id used for the rest of the run. -/
def resolveNetwork (networkType : String) (operation : String) : Option (String × Nat) :=
  if (networkType ≠ utils.TestNet ∧ networkType ≠ utils.Mainnet) ∨ operation = "" then
    none
  else if networkType = utils.Mainnet then
    some (utils.MainnnetRPC, utils.MainnetChainID)
  else
    some (utils.TestnetRPC, utils.TestnetChainID)

/-- One full run of `main` (after flag parsing), as its event list. -/
def mainRun (env : MainEnv) (flags : Flags) : List Ev :=
  match resolveNetwork flags.networkType flags.operation with
  | none => [.out usageMessage]
  | some (rpcUrl, chainId) =>
    .call (.dialRPC rpcUrl) :: onErr env.dialRes fun _ =>
    if flags.operation = utils.InitKey then
      let generated := generateOrGetTempAccount env.ks chainId
      generated.1 ++
        (match generated.2 with
         | .error e => [.errOut e]
         | .ok _ => [])
    else if flags.operation = utils.DeployContract then
      match readConfigData env.configRaw with
      | .error e => [.errOut e]
      | .ok configData =>
        let generated := generateOrGetTempAccount env.ks chainId
        generated.1 ++
          (match generated.2 with
           | .error e => [.errOut e]
           | .ok tempAccount =>
             let deployed :=
               DeployContractFromTempAccount env.deploy tempAccount configData.ContractData chainId
             deployed.1 ++
               (match deployed.2 with
                | .error e => [.errOut e]
                | .ok _ => []))
    else if flags.operation = utils.ApproveBind then
      if strStartsWith flags.bep20ContractAddr "0x" || flags.bep20ContractAddr.length == 42 then
        [.out "Invalid bep20 contract address"]
      else
        match readConfigData env.configRaw with
        | .error e => [.errOut e]
        | .ok configData =>
          let generated := generateOrGetTempAccount env.ks chainId
          generated.1 ++
            (match generated.2 with
             | .error e => [.errOut e]
             | .ok tempAccount =>
               ApproveBindAndTransferOwnershipAndRestBalanceBackToLedgerAccount
                 env.bind configData tempAccount flags.bep20ContractAddr chainId)
    else if flags.operation = utils.RefundRestBNB then
      if strStartsWith flags.ledgerAccount "0x" || flags.ledgerAccount.length == 42 then
        [.out "Invalid refund address"]
      else
        let generated := generateOrGetTempAccount env.ks chainId
        generated.1 ++
          (match generated.2 with
           | .error e => [.errOut e]
           | .ok _ => RefundRestBNB env.refund flags.ledgerAccount chainId)
    else if flags.operation = utils.DeployTransferRefund then
      match readConfigData env.configRaw with
      | .error e => [.errOut e]
      | .ok config =>
        let generated := generateOrGetTempAccount env.ks chainId
        generated.1 ++
          (match generated.2 with
           | .error e => [.errOut e]
           | .ok tempAccount =>
             let deployed :=
               DeployContractFromTempAccount env.deploy tempAccount config.ContractData chainId
             deployed.1 ++
               (match deployed.2 with
                | .error e => [.errOut e]
                | .ok contractAddr =>
                  TransferTokenAndOwnership env.transfer config.LedgerAccount contractAddr chainId ++
                  RefundRestBNB env.refund config.LedgerAccount chainId))
    else if flags.operation = utils.ApproveBindFromLedger then
      match strToInt flags.peggyAmount with
      | none => [.out "invalid peggy amount"]
      | some peggyAmount =>
        if strStartsWith flags.bep20ContractAddr "0x" || flags.bep20ContractAddr.length == 42 then
          [.out "Invalid bep20 contract address"]
        else
          match readConfigData env.configRaw with
          | .error e => [.errOut e]
          | .ok config =>
            let opened := openLedger env.ledger flags.ledgerAccountIndex
            opened.1 ++
              (match opened.2 with
               | .error e => [.errOut e]
               | .ok _ =>
                 ApproveBind env.ledgerBind config.BEP2Symbol flags.bep20ContractAddr
                   peggyAmount chainId)
    else
      [.out ("unsupported operation: " ++ flags.operation)]

/-! ## Trace analysis -/

/-- The chain call of an event, if it is one. -/
def evCall : Ev → Option ChainCall
  | .call c => some c
  | _ => none

/-- The external calls of a trace, in order. -/
def chainCalls (trace : List Ev) : List ChainCall :=
  trace.filterMap evCall

/-- Everything a trace still does after its first printed error.  A
strictly abort-on-error operation has `afterError trace = []`. -/
def afterError : List Ev → List Ev
  | [] => []
  | .errOut _ :: rest => rest
  | .out _ :: rest => afterError rest
  | .sleep _ :: rest => afterError rest
  | .call _ :: rest => afterError rest

/-- Whether a trace prints an error. -/
def hasErr (trace : List Ev) : Bool :=
  trace.any fun ev =>
    match ev with
    | .errOut _ => true
    | _ => false

/-! ## Per-operation upper bounds on the calls a run can make

Each call site of the source occurs in these lists exactly once; a run's
call list is always a sublist of the corresponding list, which is how
order preservation and absence of retries are proved. -/

/-- The account a `generateOrGetTempAccount` run can end up unlocking. -/
def gtAcct (env : KeystoreEnv) : String :=
  match env.accounts with
  | [] =>
    match env.newAccountRes with
    | .ok a => a
    | .error _ => ""
  | a :: _ => a

def gtMaxCalls (env : KeystoreEnv) : List ChainCall :=
  [.newKeystoreAccount utils.Passwd, .unlockAccount (gtAcct env) utils.Passwd]

def deployMaxCalls : List ChainCall :=
  [.deployBEP20Contract, .deployReceipt]

/-- The total supply an environment reports (0 when the read fails; a
failed run never uses the value). -/
def tsOf (r : Except String Nat) : Nat :=
  match r with
  | .ok t => t
  | .error _ => 0

def bindMaxCalls (env : BindEnv) (bep20ContractAddr : String) (symbol : String)
    (owner : String) : List ChainCall :=
  [.newBep20, .totalSupply, .approve tokenManager (tsOf env.totalSupplyRes),
   .newTokenManager, .approveBind bep20ContractAddr symbol, .approveBindReceipt,
   .rejectBind bep20ContractAddr symbol, .rejectBindReceipt,
   .newOwnable, .transferOwnership owner]

def transferMaxCalls (env : TransferEnv) (tokenOwner : String) : List ChainCall :=
  [.newBep20, .totalSupply, .transferToken tokenOwner (tsOf env.totalSupplyRes),
   .newOwnable, .transferOwnership tokenOwner]

/-- The refundable amount of a refund environment. -/
def refundAmt (env : RefundEnv) : Int :=
  env.balance - env.gasReserve

def refundMaxCalls (env : RefundEnv) (refundAddr : String) : List ChainCall :=
  [.sendAllRestBNB refundAddr (refundAmt env)]

def ledgerMaxCalls (index : Nat) : List ChainCall :=
  [.newLedgerHub, .ledgerClose, .ledgerOpen, .ledgerStatus,
   .ledgerDerive (derivePath index)]

def ledgerBindMaxCalls (bep20ContractAddr : String) (peggyAmount : Int) : List ChainCall :=
  [.ledgerSendApprove bep20ContractAddr peggyAmount, .ledgerSendApproveBind tokenManager]

/-- The config a run works with (irrelevant fallback when reading fails). -/
def cfgOf (raw : Except String BindConfig) : BindConfig :=
  match readConfigData raw with
  | .ok c => c
  | .error _ => ⟨"", "", "", ""⟩

/-- The parsed peggy amount (irrelevant fallback when parsing fails). -/
def peggyOf (s : String) : Int :=
  match strToInt s with
  | some p => p
  | none => 0

def mainMaxCalls (env : MainEnv) (flags : Flags) : List ChainCall :=
  match resolveNetwork flags.networkType flags.operation with
  | none => []
  | some (rpcUrl, _) =>
    .dialRPC rpcUrl ::
    (if flags.operation = utils.InitKey then
      gtMaxCalls env.ks
    else if flags.operation = utils.DeployContract then
      gtMaxCalls env.ks ++ deployMaxCalls
    else if flags.operation = utils.ApproveBind then
      gtMaxCalls env.ks ++
        bindMaxCalls env.bind flags.bep20ContractAddr (cfgOf env.configRaw).BEP2Symbol
          (cfgOf env.configRaw).LedgerAccount
    else if flags.operation = utils.RefundRestBNB then
      gtMaxCalls env.ks ++ refundMaxCalls env.refund flags.ledgerAccount
    else if flags.operation = utils.DeployTransferRefund then
      gtMaxCalls env.ks ++ deployMaxCalls ++
        transferMaxCalls env.transfer (cfgOf env.configRaw).LedgerAccount ++
        refundMaxCalls env.refund (cfgOf env.configRaw).LedgerAccount
    else if flags.operation = utils.ApproveBindFromLedger then
      ledgerMaxCalls flags.ledgerAccountIndex ++
        ledgerBindMaxCalls flags.bep20ContractAddr (peggyOf flags.peggyAmount)
    else
      [])

/-! ## Concrete sample runs (used by witnesses and counterexamples) -/

/-- A well-formed bsc address: `0x` plus 40 hexadecimal characters. -/
def goodAddr : String := "0x4E656459ed25bF986Eea1196Bc1B00665401645d"

/-- A config that passes `BindConfig.Validate`. -/
def okConfig : BindConfig := ⟨"", "SYM", "ABC", goodAddr⟩

/-- A config whose ledger account has the right shape but non-hex tail. -/
def cexConfig : BindConfig := ⟨"", "SYM", "ABC", "0xzzzzzzzzzzzzzzzzzzzzzzzzzzzzzzzzzzzzzzzz"⟩

def ksOne : KeystoreEnv := ⟨.ok "/wd", ["0xtmp"], .ok "0xnew", .ok ()⟩

def ksZero : KeystoreEnv := ⟨.ok "/wd", [], .ok "0xnew", .ok ()⟩

def ksMany : KeystoreEnv := ⟨.ok "/wd", ["0xa", "0xb"], .ok "0xnew", .ok ()⟩

def okDeploy : DeployEnv := ⟨.ok 21, .ok "0xcontract"⟩

/-- Approve-bind environment whose bind receipt reports failure (status 0). -/
def bindFailEnv : BindEnv := ⟨.ok (), .ok 1000, .ok 11, .ok 12, .ok 0, .ok 13, .ok 1, .ok (), .ok 14⟩

/-- Approve-bind environment whose bind receipt reports success (status 1). -/
def bindSuccEnv : BindEnv := ⟨.ok (), .ok 1000, .ok 11, .ok 12, .ok 1, .ok 13, .ok 1, .ok (), .ok 14⟩

def okTransfer : TransferEnv := ⟨.ok (), .ok 1000, .ok 31, .ok (), .ok 32⟩

/-- Transfer environment whose total-supply read fails. -/
def failTransfer : TransferEnv := ⟨.ok (), .error "boom", .ok 31, .ok (), .ok 32⟩

def okRefund : RefundEnv := ⟨10, 3, .ok 41⟩

/-- Refund environment whose balance does not cover the reserved gas. -/
def lowRefund : RefundEnv := ⟨1, 5, .ok 41⟩

def okLedger : LedgerEnv := ⟨.ok (), ["wallet0"], .ok (), .ok (), .ok "online", .ok "0xledgeracct"⟩

def okLedgerBind : LedgerBindEnv := ⟨.ok (), .ok 51, .ok (), .ok 52⟩

def baseEnv : MainEnv :=
  ⟨.ok (), .ok okConfig, ksOne, okDeploy, bindFailEnv, okTransfer, okRefund, okLedger, okLedgerBind⟩

/-- `baseEnv` with an empty keystore directory, so a fresh temporary
account gets created. -/
def envZero : MainEnv :=
  ⟨.ok (), .ok okConfig, ksZero, okDeploy, bindFailEnv, okTransfer, okRefund, okLedger, okLedgerBind⟩

/-- `baseEnv` with the failing transfer stage. -/
def envC3 : MainEnv :=
  ⟨.ok (), .ok okConfig, ksOne, okDeploy, bindFailEnv, failTransfer, okRefund, okLedger, okLedgerBind⟩

/-- `baseEnv` with the underfunded refund stage. -/
def envC4 : MainEnv :=
  ⟨.ok (), .ok okConfig, ksOne, okDeploy, bindFailEnv, okTransfer, lowRefund, okLedger, okLedgerBind⟩

/-- Flags whose address flags pass the source's (inverted) address check:
no `0x`, length 3. -/
def baseFlags : Flags := ⟨utils.TestNet, "", "abc", "abc", 0, "1"⟩

/-- Flags carrying the well-formed `goodAddr` in both address flags. -/
def goodAddrFlags : Flags := ⟨utils.TestNet, "", goodAddr, goodAddr, 0, "1"⟩

/-! ## Basic trace lemmas -/

@[simp] theorem evCall_out (s : String) : evCall (.out s) = none := rfl

@[simp] theorem evCall_errOut (s : String) : evCall (.errOut s) = none := rfl

@[simp] theorem evCall_sleep (n : Nat) : evCall (.sleep n) = none := rfl

@[simp] theorem evCall_call (c : ChainCall) : evCall (.call c) = some c := rfl

@[simp] theorem chainCalls_nil : chainCalls [] = [] := rfl

@[simp] theorem chainCalls_cons_out (s : String) (l : List Ev) :
    chainCalls (.out s :: l) = chainCalls l := by
  simp [chainCalls]

@[simp] theorem chainCalls_cons_errOut (s : String) (l : List Ev) :
    chainCalls (.errOut s :: l) = chainCalls l := by
  simp [chainCalls]

@[simp] theorem chainCalls_cons_sleep (n : Nat) (l : List Ev) :
    chainCalls (.sleep n :: l) = chainCalls l := by
  simp [chainCalls]

@[simp] theorem chainCalls_cons_call (c : ChainCall) (l : List Ev) :
    chainCalls (.call c :: l) = c :: chainCalls l := by
  simp [chainCalls]

@[simp] theorem chainCalls_append (l₁ l₂ : List Ev) :
    chainCalls (l₁ ++ l₂) = chainCalls l₁ ++ chainCalls l₂ := by
  simp [chainCalls]

@[simp] theorem chainCalls_cons_printTx (a b : String) (c : Nat) (l : List Ev) :
    chainCalls (PrintTxExplorerUrl a b c :: l) = chainCalls l := by
  unfold PrintTxExplorerUrl
  split <;> simp

@[simp] theorem chainCalls_cons_printAddr (a b : String) (c : Nat) (l : List Ev) :
    chainCalls (PrintAddrExplorerUrl a b c :: l) = chainCalls l := by
  unfold PrintAddrExplorerUrl
  split <;> simp

@[simp] theorem afterError_nil : afterError [] = [] := rfl

@[simp] theorem afterError_cons_out (s : String) (l : List Ev) :
    afterError (.out s :: l) = afterError l := rfl

@[simp] theorem afterError_cons_errOut (s : String) (l : List Ev) :
    afterError (.errOut s :: l) = l := rfl

@[simp] theorem afterError_cons_sleep (n : Nat) (l : List Ev) :
    afterError (.sleep n :: l) = afterError l := rfl

@[simp] theorem afterError_cons_call (c : ChainCall) (l : List Ev) :
    afterError (.call c :: l) = afterError l := rfl

@[simp] theorem afterError_cons_printTx (a b : String) (c : Nat) (l : List Ev) :
    afterError (PrintTxExplorerUrl a b c :: l) = afterError l := by
  unfold PrintTxExplorerUrl
  split <;> rfl

@[simp] theorem afterError_cons_printAddr (a b : String) (c : Nat) (l : List Ev) :
    afterError (PrintAddrExplorerUrl a b c :: l) = afterError l := by
  unfold PrintAddrExplorerUrl
  split <;> rfl

@[simp] theorem hasErr_nil : hasErr [] = false := rfl

@[simp] theorem hasErr_cons_out (s : String) (l : List Ev) :
    hasErr (.out s :: l) = hasErr l := by
  simp [hasErr]

@[simp] theorem hasErr_cons_errOut (s : String) (l : List Ev) :
    hasErr (.errOut s :: l) = true := by
  simp [hasErr]

@[simp] theorem hasErr_cons_sleep (n : Nat) (l : List Ev) :
    hasErr (.sleep n :: l) = hasErr l := by
  simp [hasErr]

@[simp] theorem hasErr_cons_call (c : ChainCall) (l : List Ev) :
    hasErr (.call c :: l) = hasErr l := by
  simp [hasErr]

@[simp] theorem hasErr_cons_printTx (a b : String) (c : Nat) (l : List Ev) :
    hasErr (PrintTxExplorerUrl a b c :: l) = hasErr l := by
  unfold PrintTxExplorerUrl
  split <;> simp

@[simp] theorem hasErr_cons_printAddr (a b : String) (c : Nat) (l : List Ev) :
    hasErr (PrintAddrExplorerUrl a b c :: l) = hasErr l := by
  unfold PrintAddrExplorerUrl
  split <;> simp

@[simp] theorem onErr_ok {α : Type} (a : α) (k : α → List Ev) :
    onErr (.ok a) k = k a := rfl

@[simp] theorem onErr_error {α : Type} (e : String) (k : α → List Ev) :
    onErr (.error e) k = [.errOut e] := rfl

theorem afterError_onErr {α : Type} (r : Except String α) (k : α → List Ev)
    (h : ∀ a, afterError (k a) = []) : afterError (onErr r k) = [] := by
  cases r with
  | error e => simp
  | ok a => simpa using h a

theorem afterError_append (l₁ l₂ : List Ev) :
    afterError (l₁ ++ l₂) =
      if hasErr l₁ then afterError l₁ ++ l₂ else afterError l₂ := by
  induction l₁ with
  | nil => simp
  | cons x t ih =>
    cases x with
    | out s => simpa using ih
    | errOut s => simp
    | sleep n => simpa using ih
    | call c => simpa using ih

theorem chainCalls_onErr_sublist {α : Type} {r : Except String α} {k : α → List Ev}
    {L : List ChainCall} (h : ∀ a, r = .ok a → List.Sublist (chainCalls (k a)) L) :
    List.Sublist (chainCalls (onErr r k)) L := by
  cases r with
  | error e => simp
  | ok a => exact h a rfl

/-! ## Per-function trace facts -/

theorem printTx_isOut (a b : String) (c : Nat) :
    ∃ s, PrintTxExplorerUrl a b c = .out s := by
  unfold PrintTxExplorerUrl
  split <;> exact ⟨_, rfl⟩

theorem hasErr_gt (env : KeystoreEnv) (chainId : Nat) :
    hasErr (generateOrGetTempAccount env chainId).1 = false := by
  unfold generateOrGetTempAccount
  rcases env with ⟨gw, accts, na, ul⟩
  cases gw <;> cases na <;> cases ul <;>
    rcases accts with _ | ⟨a, _ | ⟨b, t⟩⟩ <;> simp

theorem hasErr_deploy (env : DeployEnv) (acct data : String) (chainId : Nat) :
    hasErr (DeployContractFromTempAccount env acct data chainId).1 = false := by
  unfold DeployContractFromTempAccount
  rcases env with ⟨dt, rc⟩
  cases dt <;> cases rc <;> by_cases h : validHex data <;> simp [h]

theorem afterError_bind (env : BindEnv) (cfg : BindConfig) (acct addr : String)
    (chainId : Nat) :
    afterError (ApproveBindAndTransferOwnershipAndRestBalanceBackToLedgerAccount
      env cfg acct addr chainId) = [] := by
  unfold ApproveBindAndTransferOwnershipAndRestBalanceBackToLedgerAccount
  simp only [afterError_cons_call]
  refine afterError_onErr _ _ fun _ => ?_
  simp only [afterError_cons_call]
  refine afterError_onErr _ _ fun ts => ?_
  simp only [afterError_cons_out, afterError_cons_call]
  refine afterError_onErr _ _ fun atx => ?_
  simp only [afterError_cons_printTx, afterError_cons_sleep, afterError_cons_call]
  refine afterError_onErr _ _ fun btx => ?_
  simp only [afterError_cons_printTx, afterError_cons_sleep, afterError_cons_call]
  refine afterError_onErr _ _ fun st => ?_
  simp only [afterError_cons_out]
  split
  · simp only [afterError_cons_out, afterError_cons_call]
    refine afterError_onErr _ _ fun rtx => ?_
    simp only [afterError_cons_printTx, afterError_cons_sleep, afterError_cons_out,
      afterError_cons_call]
    refine afterError_onErr _ _ fun rst => ?_
    simp
  · simp only [afterError_cons_sleep, afterError_cons_call]
    refine afterError_onErr _ _ fun _ => ?_
    simp only [afterError_cons_out, afterError_cons_call]
    refine afterError_onErr _ _ fun ttx => ?_
    simp

theorem afterError_transfer (env : TransferEnv) (owner addr : String) (chainId : Nat) :
    afterError (TransferTokenAndOwnership env owner addr chainId) = [] := by
  unfold TransferTokenAndOwnership
  simp only [afterError_cons_call]
  refine afterError_onErr _ _ fun _ => ?_
  simp only [afterError_cons_call]
  refine afterError_onErr _ _ fun ts => ?_
  simp only [afterError_cons_out, afterError_cons_call]
  refine afterError_onErr _ _ fun ttx => ?_
  simp only [afterError_cons_printTx, afterError_cons_sleep, afterError_cons_call]
  refine afterError_onErr _ _ fun _ => ?_
  simp only [afterError_cons_out, afterError_cons_call]
  refine afterError_onErr _ _ fun otx => ?_
  simp

theorem afterError_ledgerBind (env : LedgerBindEnv) (sym addr : String)
    (peggy : Int) (chainId : Nat) :
    afterError (ApproveBind env sym addr peggy chainId) = [] := by
  unfold ApproveBind
  simp only [afterError_cons_out]
  refine afterError_onErr _ _ fun _ => ?_
  simp only [afterError_cons_call]
  refine afterError_onErr _ _ fun atx => ?_
  simp only [afterError_cons_printTx, afterError_cons_sleep]
  refine afterError_onErr _ _ fun _ => ?_
  simp only [afterError_cons_call]
  refine afterError_onErr _ _ fun btx => ?_
  simp

theorem afterError_refund (env : RefundEnv) (addr : String) (chainId : Nat) :
    afterError (RefundRestBNB env addr chainId) = [] ∨
      ∃ u, afterError (RefundRestBNB env addr chainId) = [.out u, .out bannerLine] := by
  unfold RefundRestBNB sendAllRestBNBAmount
  obtain ⟨u0, hu0⟩ := printTx_isOut "Refund txHash" (toString (0 : Nat)) chainId
  by_cases h : env.balance - env.gasReserve < 0
  · right
    exact ⟨u0, by simp [h, hu0]⟩
  · cases hs : env.sendRes with
    | error e =>
      right
      exact ⟨u0, by simp [h, hs, hu0]⟩
    | ok tx =>
      left
      obtain ⟨u1, hu1⟩ := printTx_isOut "Refund txHash" (toString tx) chainId
      simp [h, hs, hu1]

theorem hasErr_openLedger (env : LedgerEnv) (index : Nat)
    (h : env.closeRes = .ok ()) :
    hasErr (openLedger env index).1 = false := by
  unfold openLedger
  rcases env with ⟨hub, ws, cl, opn, st, dv⟩
  simp only at h
  subst h
  cases hub <;> rcases ws with _ | ⟨w, t⟩ <;> cases opn <;> cases st <;> cases dv <;> simp

/-! ## Call-list upper bounds (no call site runs twice) -/

theorem gt_calls_sublist (env : KeystoreEnv) (chainId : Nat) :
    List.Sublist (chainCalls (generateOrGetTempAccount env chainId).1) (gtMaxCalls env) := by
  unfold generateOrGetTempAccount gtMaxCalls gtAcct
  rcases env with ⟨gw, accts, na, ul⟩
  cases gw <;> cases na <;> cases ul <;>
    rcases accts with _ | ⟨a, _ | ⟨b, t⟩⟩ <;>
    simp [List.nil_sublist, List.sublist_cons_self, List.cons_sublist_cons,
      List.Sublist.refl]

theorem deploy_calls_sublist (env : DeployEnv) (acct data : String) (chainId : Nat) :
    List.Sublist (chainCalls (DeployContractFromTempAccount env acct data chainId).1)
      deployMaxCalls := by
  unfold DeployContractFromTempAccount deployMaxCalls
  rcases env with ⟨dt, rc⟩
  cases dt <;> cases rc <;> by_cases h : validHex data <;>
    simp [h, List.nil_sublist, List.cons_sublist_cons, List.Sublist.refl]

theorem bind_calls_sublist (env : BindEnv) (cfg : BindConfig) (acct addr : String)
    (chainId : Nat) :
    List.Sublist
      (chainCalls (ApproveBindAndTransferOwnershipAndRestBalanceBackToLedgerAccount
        env cfg acct addr chainId))
      (bindMaxCalls env addr cfg.BEP2Symbol cfg.LedgerAccount) := by
  unfold ApproveBindAndTransferOwnershipAndRestBalanceBackToLedgerAccount bindMaxCalls
  simp only [chainCalls_cons_call]
  refine List.Sublist.cons₂ _ (chainCalls_onErr_sublist fun _ _ => ?_)
  simp only [chainCalls_cons_call]
  refine List.Sublist.cons₂ _ (chainCalls_onErr_sublist fun ts hts => ?_)
  simp only [chainCalls_cons_out, chainCalls_cons_call, tsOf, hts]
  refine List.Sublist.cons₂ _ (chainCalls_onErr_sublist fun atx _ => ?_)
  simp only [chainCalls_cons_printTx, chainCalls_cons_sleep, chainCalls_cons_call]
  refine List.Sublist.cons₂ _ (List.Sublist.cons₂ _ (chainCalls_onErr_sublist fun btx _ => ?_))
  simp only [chainCalls_cons_printTx, chainCalls_cons_sleep, chainCalls_cons_call]
  refine List.Sublist.cons₂ _ (chainCalls_onErr_sublist fun st _ => ?_)
  simp only [chainCalls_cons_out]
  split
  · simp only [chainCalls_cons_out, chainCalls_cons_call]
    refine List.Sublist.cons₂ _ (chainCalls_onErr_sublist fun rtx _ => ?_)
    simp only [chainCalls_cons_printTx, chainCalls_cons_sleep, chainCalls_cons_out,
      chainCalls_cons_call]
    refine List.Sublist.cons₂ _ (chainCalls_onErr_sublist fun rst _ => ?_)
    simp
  · simp only [chainCalls_cons_sleep, chainCalls_cons_call]
    refine List.Sublist.cons _ (List.Sublist.cons _ ?_)
    refine List.Sublist.cons₂ _ (chainCalls_onErr_sublist fun _ _ => ?_)
    simp only [chainCalls_cons_out, chainCalls_cons_call]
    refine List.Sublist.cons₂ _ (chainCalls_onErr_sublist fun otx _ => ?_)
    simp

theorem transfer_calls_sublist (env : TransferEnv) (owner addr : String) (chainId : Nat) :
    List.Sublist (chainCalls (TransferTokenAndOwnership env owner addr chainId))
      (transferMaxCalls env owner) := by
  unfold TransferTokenAndOwnership transferMaxCalls
  simp only [chainCalls_cons_call]
  refine List.Sublist.cons₂ _ (chainCalls_onErr_sublist fun _ _ => ?_)
  simp only [chainCalls_cons_call]
  refine List.Sublist.cons₂ _ (chainCalls_onErr_sublist fun ts hts => ?_)
  simp only [chainCalls_cons_out, chainCalls_cons_call, tsOf, hts]
  refine List.Sublist.cons₂ _ (chainCalls_onErr_sublist fun ttx _ => ?_)
  simp only [chainCalls_cons_printTx, chainCalls_cons_sleep, chainCalls_cons_call]
  refine List.Sublist.cons₂ _ (chainCalls_onErr_sublist fun _ _ => ?_)
  simp only [chainCalls_cons_out, chainCalls_cons_call]
  refine List.Sublist.cons₂ _ (chainCalls_onErr_sublist fun otx _ => ?_)
  simp

theorem refund_calls_sublist (env : RefundEnv) (addr : String) (chainId : Nat) :
    List.Sublist (chainCalls (RefundRestBNB env addr chainId))
      (refundMaxCalls env addr) := by
  unfold RefundRestBNB refundMaxCalls sendAllRestBNBAmount refundAmt
  by_cases h : env.balance - env.gasReserve < 0 <;> cases hs : env.sendRes <;>
    simp [h, hs, List.nil_sublist, List.cons_sublist_cons, List.Sublist.refl]

theorem openLedger_calls_sublist (env : LedgerEnv) (index : Nat) :
    List.Sublist (chainCalls (openLedger env index).1) (ledgerMaxCalls index) := by
  unfold openLedger ledgerMaxCalls
  rcases env with ⟨hub, ws, cl, opn, st, dv⟩
  cases hub <;> rcases ws with _ | ⟨w, t⟩ <;> cases cl <;> cases opn <;>
    cases st <;> cases dv <;>
    simp [List.nil_sublist, List.cons_sublist_cons, List.Sublist.refl]

theorem ledgerBind_calls_sublist (env : LedgerBindEnv) (sym addr : String)
    (peggy : Int) (chainId : Nat) :
    List.Sublist (chainCalls (ApproveBind env sym addr peggy chainId))
      (ledgerBindMaxCalls addr peggy) := by
  unfold ApproveBind ledgerBindMaxCalls
  simp only [chainCalls_cons_out]
  refine chainCalls_onErr_sublist fun _ _ => ?_
  simp only [chainCalls_cons_call]
  refine List.Sublist.cons₂ _ (chainCalls_onErr_sublist fun atx _ => ?_)
  simp only [chainCalls_cons_printTx, chainCalls_cons_sleep]
  refine chainCalls_onErr_sublist fun _ _ => ?_
  simp only [chainCalls_cons_call]
  refine List.Sublist.cons₂ _ (chainCalls_onErr_sublist fun btx _ => ?_)
  simp

/-! ## Whole-run call facts -/

theorem mainRun_calls_sublist (env : MainEnv) (flags : Flags) :
    List.Sublist (chainCalls (mainRun env flags)) (mainMaxCalls env flags) := by
  unfold mainRun mainMaxCalls
  cases hres : resolveNetwork flags.networkType flags.operation with
  | none => simp
  | some p =>
    rcases p with ⟨rpcUrl, chainId⟩
    simp only [chainCalls_cons_call]
    refine List.Sublist.cons₂ _ (chainCalls_onErr_sublist fun _ _ => ?_)
    by_cases h1 : flags.operation = utils.InitKey
    · simp only [if_pos h1, chainCalls_append]
      cases hgt : (generateOrGetTempAccount env.ks chainId).2 <;>
        simpa [hgt] using gt_calls_sublist env.ks chainId
    · simp only [if_neg h1]
      by_cases h2 : flags.operation = utils.DeployContract
      · simp only [if_pos h2]
        cases hc : readConfigData env.configRaw with
        | error e => simp
        | ok configData =>
          simp only [chainCalls_append]
          refine List.Sublist.append (gt_calls_sublist env.ks chainId) ?_
          cases hgt : (generateOrGetTempAccount env.ks chainId).2 with
          | error e => simp [List.nil_sublist]
          | ok tempAccount =>
            simp only [chainCalls_append]
            cases hdep : (DeployContractFromTempAccount env.deploy tempAccount
                configData.ContractData chainId).2 <;>
              simpa [hdep] using
                deploy_calls_sublist env.deploy tempAccount configData.ContractData chainId
      · simp only [if_neg h2]
        by_cases h3 : flags.operation = utils.ApproveBind
        · simp only [if_pos h3]
          by_cases hchk : strStartsWith flags.bep20ContractAddr "0x" = true ∨
              flags.bep20ContractAddr.length == 42
          · rw [if_pos (by simpa using hchk)]
            simp
          · rw [if_neg (by simpa using hchk)]
            cases hc : readConfigData env.configRaw with
            | error e => simp
            | ok configData =>
              simp only [chainCalls_append, cfgOf, hc]
              refine List.Sublist.append (gt_calls_sublist env.ks chainId) ?_
              cases hgt : (generateOrGetTempAccount env.ks chainId).2 with
              | error e => simp [List.nil_sublist]
              | ok tempAccount =>
                exact bind_calls_sublist env.bind configData tempAccount
                  flags.bep20ContractAddr chainId
        · simp only [if_neg h3]
          by_cases h4 : flags.operation = utils.RefundRestBNB
          · simp only [if_pos h4]
            by_cases hchk : strStartsWith flags.ledgerAccount "0x" = true ∨
                flags.ledgerAccount.length == 42
            · rw [if_pos (by simpa using hchk)]
              simp
            · rw [if_neg (by simpa using hchk)]
              simp only [chainCalls_append]
              refine List.Sublist.append (gt_calls_sublist env.ks chainId) ?_
              cases hgt : (generateOrGetTempAccount env.ks chainId).2 with
              | error e => simp [List.nil_sublist]
              | ok tempAccount => exact refund_calls_sublist env.refund flags.ledgerAccount chainId
          · simp only [if_neg h4]
            by_cases h5 : flags.operation = utils.DeployTransferRefund
            · simp only [if_pos h5]
              cases hc : readConfigData env.configRaw with
              | error e => simp
              | ok config =>
                simp only [chainCalls_append, cfgOf, hc, List.append_assoc]
                refine List.Sublist.append (gt_calls_sublist env.ks chainId) ?_
                cases hgt : (generateOrGetTempAccount env.ks chainId).2 with
                | error e => simp [List.nil_sublist]
                | ok tempAccount =>
                  simp only [chainCalls_append]
                  refine List.Sublist.append
                    (deploy_calls_sublist env.deploy tempAccount config.ContractData chainId) ?_
                  cases hdep : (DeployContractFromTempAccount env.deploy tempAccount
                      config.ContractData chainId).2 with
                  | error e => simp [List.nil_sublist]
                  | ok contractAddr =>
                    simp only [chainCalls_append]
                    exact List.Sublist.append
                      (transfer_calls_sublist env.transfer config.LedgerAccount contractAddr chainId)
                      (refund_calls_sublist env.refund config.LedgerAccount chainId)
            · simp only [if_neg h5]
              by_cases h6 : flags.operation = utils.ApproveBindFromLedger
              · simp only [if_pos h6]
                cases hp : strToInt flags.peggyAmount with
                | none => simp
                | some peggyAmount =>
                  dsimp only
                  by_cases hchk : strStartsWith flags.bep20ContractAddr "0x" = true ∨
                      flags.bep20ContractAddr.length == 42
                  · rw [if_pos (by simpa using hchk)]
                    simp
                  · rw [if_neg (by simpa using hchk)]
                    cases hc : readConfigData env.configRaw with
                    | error e => simp
                    | ok config =>
                      simp only [chainCalls_append, peggyOf, hp]
                      refine List.Sublist.append
                        (openLedger_calls_sublist env.ledger flags.ledgerAccountIndex) ?_
                      cases hop : (openLedger env.ledger flags.ledgerAccountIndex).2 with
                      | error e => simp [List.nil_sublist]
                      | ok w =>
                        exact ledgerBind_calls_sublist env.ledgerBind config.BEP2Symbol
                          flags.bep20ContractAddr peggyAmount chainId
              · simp only [if_neg h6]
                simp

theorem nodup_mainMaxCalls (env : MainEnv) (flags : Flags) :
    (mainMaxCalls env flags).Nodup := by
  unfold mainMaxCalls
  cases resolveNetwork flags.networkType flags.operation with
  | none => simp
  | some p =>
    rcases p with ⟨rpcUrl, chainId⟩
    by_cases h1 : flags.operation = utils.InitKey
    · simp [h1, gtMaxCalls]
    simp only [if_neg h1]
    by_cases h2 : flags.operation = utils.DeployContract
    · simp [h2, gtMaxCalls, deployMaxCalls]
    simp only [if_neg h2]
    by_cases h3 : flags.operation = utils.ApproveBind
    · simp [h3, gtMaxCalls, bindMaxCalls]
    simp only [if_neg h3]
    by_cases h4 : flags.operation = utils.RefundRestBNB
    · simp [h4, gtMaxCalls, refundMaxCalls]
    simp only [if_neg h4]
    by_cases h5 : flags.operation = utils.DeployTransferRefund
    · simp [h5, gtMaxCalls, deployMaxCalls, transferMaxCalls, refundMaxCalls]
    simp only [if_neg h5]
    by_cases h6 : flags.operation = utils.ApproveBindFromLedger
    · simp [h6, ledgerMaxCalls, ledgerBindMaxCalls]
    simp [if_neg h6]

theorem mainRun_calls_nodup (env : MainEnv) (flags : Flags) :
    (chainCalls (mainRun env flags)).Nodup :=
  List.Nodup.sublist (mainRun_calls_sublist env flags) (nodup_mainMaxCalls env flags)

/-! ## Abort-on-error facts per operation -/

theorem afterError_mainRun_initKey (env : MainEnv) (flags : Flags)
    (h : flags.operation = utils.InitKey) :
    afterError (mainRun env flags) = [] := by
  unfold mainRun
  cases hres : resolveNetwork flags.networkType flags.operation with
  | none => simp
  | some p =>
    rcases p with ⟨rpcUrl, chainId⟩
    simp only [afterError_cons_call]
    refine afterError_onErr _ _ fun _ => ?_
    simp only [if_pos h]
    rw [afterError_append, hasErr_gt]
    cases hgt : (generateOrGetTempAccount env.ks chainId).2 <;> simp [hgt]

theorem afterError_mainRun_deployContract (env : MainEnv) (flags : Flags)
    (h : flags.operation = utils.DeployContract) :
    afterError (mainRun env flags) = [] := by
  unfold mainRun
  cases hres : resolveNetwork flags.networkType flags.operation with
  | none => simp
  | some p =>
    rcases p with ⟨rpcUrl, chainId⟩
    simp only [afterError_cons_call]
    refine afterError_onErr _ _ fun _ => ?_
    rw [h]
    rw [if_neg (by decide), if_pos rfl]
    cases hc : readConfigData env.configRaw with
    | error e => simp
    | ok configData =>
      rw [afterError_append, hasErr_gt]
      cases hgt : (generateOrGetTempAccount env.ks chainId).2 with
      | error e => simp
      | ok tempAccount =>
        simp only [if_neg (by simp : ¬False), if_pos trivial]
        rw [afterError_append, hasErr_deploy]
        cases hdep : (DeployContractFromTempAccount env.deploy tempAccount
            configData.ContractData chainId).2 <;> simp [hdep]

theorem afterError_mainRun_approveBind (env : MainEnv) (flags : Flags)
    (h : flags.operation = utils.ApproveBind) :
    afterError (mainRun env flags) = [] := by
  unfold mainRun
  cases hres : resolveNetwork flags.networkType flags.operation with
  | none => simp
  | some p =>
    rcases p with ⟨rpcUrl, chainId⟩
    simp only [afterError_cons_call]
    refine afterError_onErr _ _ fun _ => ?_
    rw [h]
    rw [if_neg (by decide), if_neg (by decide), if_pos rfl]
    by_cases hchk : (strStartsWith flags.bep20ContractAddr "0x" ||
        flags.bep20ContractAddr.length == 42) = true
    · rw [if_pos hchk]
      simp
    · rw [if_neg hchk]
      cases hc : readConfigData env.configRaw with
      | error e => simp
      | ok configData =>
        rw [afterError_append, hasErr_gt]
        cases hgt : (generateOrGetTempAccount env.ks chainId).2 with
        | error e => simp
        | ok tempAccount => simp [afterError_bind]

theorem afterError_mainRun_refund (env : MainEnv) (flags : Flags)
    (h : flags.operation = utils.RefundRestBNB) :
    afterError (mainRun env flags) = [] ∨
      ∃ u, afterError (mainRun env flags) = [.out u, .out bannerLine] := by
  unfold mainRun
  cases hres : resolveNetwork flags.networkType flags.operation with
  | none => left; simp
  | some p =>
    rcases p with ⟨rpcUrl, chainId⟩
    simp only [afterError_cons_call]
    cases hd : env.dialRes with
    | error e => left; simp
    | ok u =>
      simp only [onErr_ok]
      rw [h]
      rw [if_neg (by decide), if_neg (by decide), if_neg (by decide), if_pos rfl]
      by_cases hchk : (strStartsWith flags.ledgerAccount "0x" ||
          flags.ledgerAccount.length == 42) = true
      · rw [if_pos hchk]
        left; simp
      · rw [if_neg hchk]
        rw [afterError_append, hasErr_gt]
        cases hgt : (generateOrGetTempAccount env.ks chainId).2 with
        | error e => left; simp
        | ok tempAccount =>
          simpa using afterError_refund env.refund flags.ledgerAccount chainId

theorem afterError_mainRun_composite (env : MainEnv) (flags : Flags)
    (h : flags.operation = utils.DeployTransferRefund) :
    ∀ c ∈ chainCalls (afterError (mainRun env flags)),
      ∃ recipient amount, c = .sendAllRestBNB recipient amount := by
  unfold mainRun
  cases hres : resolveNetwork flags.networkType flags.operation with
  | none => simp
  | some p =>
    rcases p with ⟨rpcUrl, chainId⟩
    simp only [afterError_cons_call]
    cases hd : env.dialRes with
    | error e => simp
    | ok u =>
      simp only [onErr_ok]
      rw [h]
      rw [if_neg (by decide), if_neg (by decide), if_neg (by decide), if_neg (by decide),
        if_pos rfl]
      cases hc : readConfigData env.configRaw with
      | error e => simp
      | ok config =>
        rw [afterError_append, hasErr_gt]
        cases hgt : (generateOrGetTempAccount env.ks chainId).2 with
        | error e => simp
        | ok tempAccount =>
          simp only [if_neg (by simp : ¬False), if_pos trivial]
          rw [afterError_append, hasErr_deploy]
          cases hdep : (DeployContractFromTempAccount env.deploy tempAccount
              config.ContractData chainId).2 with
          | error e => simp
          | ok contractAddr =>
            simp only
            rw [afterError_append]
            by_cases ht : hasErr (TransferTokenAndOwnership env.transfer
                config.LedgerAccount contractAddr chainId) = true
            · rw [if_pos ht, afterError_transfer]
              intro c hc'
              simp only [List.nil_append] at hc'
              have hs := refund_calls_sublist env.refund config.LedgerAccount chainId
              have hmem := hs.subset hc'
              simp only [refundMaxCalls, List.mem_singleton] at hmem
              exact ⟨config.LedgerAccount, refundAmt env.refund, hmem⟩
            · rw [if_neg ht]
              rcases afterError_refund env.refund config.LedgerAccount chainId with hr | ⟨v, hr⟩ <;>
                simp [hr]

theorem afterError_mainRun_ledger (env : MainEnv) (flags : Flags)
    (h : flags.operation = utils.ApproveBindFromLedger)
    (hclose : env.ledger.closeRes = .ok ()) :
    afterError (mainRun env flags) = [] := by
  unfold mainRun
  cases hres : resolveNetwork flags.networkType flags.operation with
  | none => simp
  | some p =>
    rcases p with ⟨rpcUrl, chainId⟩
    simp only [afterError_cons_call]
    refine afterError_onErr _ _ fun _ => ?_
    rw [h]
    rw [if_neg (by decide), if_neg (by decide), if_neg (by decide), if_neg (by decide),
      if_neg (by decide), if_pos rfl]
    cases hp : strToInt flags.peggyAmount with
    | none => simp
    | some peggyAmount =>
      dsimp only
      by_cases hchk : (strStartsWith flags.bep20ContractAddr "0x" ||
          flags.bep20ContractAddr.length == 42) = true
      · rw [if_pos hchk]
        simp
      · rw [if_neg hchk]
        cases hc : readConfigData env.configRaw with
        | error e => simp
        | ok config =>
          rw [afterError_append, hasErr_openLedger env.ledger flags.ledgerAccountIndex hclose]
          cases hop : (openLedger env.ledger flags.ledgerAccountIndex).2 with
          | error e => simp
          | ok w => simp [afterError_ledgerBind]

/-! ## Claims -/

/-- Claim C5, counterexample: a config whose `ledger_account` starts with
`0x` and has length 42 but whose 40 trailing characters are not
hexadecimal passes `BindConfig.Validate`, although the claim says every
config whose ledger account is not `0x` plus 40 hex characters is
rejected. -/
theorem claim_C5_counterexample :
    BindConfig.Validate cexConfig = none ∧
      specWellFormedLedgerAccount cexConfig.LedgerAccount = false :=
  ⟨by decide, by decide⟩

/-- Claim C5 (amended): `BindConfig.Validate` returns an error exactly
when `contract_data` is not a valid hex string, or `bep2_symbol` is
empty, or `ledger_account` does not start with `0x`, or its total length
is not 42 (the trailing 40 characters are not checked to be hexadecimal);
and a config that reaches an operation through `readConfigData` always
passes `Validate`. -/
theorem claim_C5_amended : ∀ (c : BindConfig) (raw : Except String BindConfig)
    (cfg : BindConfig),
    ((BindConfig.Validate c).isSome ↔
      (validHex c.ContractData = false ∨ c.BEP2Symbol.length = 0 ∨
        strStartsWith c.LedgerAccount "0x" = false ∨ c.LedgerAccount.length ≠ 42)) ∧
    (readConfigData raw = .ok cfg → cfg.Validate = none) := by
  intro c raw cfg
  constructor
  · unfold BindConfig.Validate
    by_cases h1 : validHex c.ContractData <;>
      by_cases h2 : c.BEP2Symbol.length = 0 <;>
      by_cases h3 : strStartsWith c.LedgerAccount "0x" <;>
      by_cases h4 : c.LedgerAccount.length = 42 <;>
      simp [h1, h2, h3, h4]
  · intro h
    unfold readConfigData at h
    cases raw with
    | error e => simp at h
    | ok c' =>
      cases hv : c'.Validate with
      | some e => simp [hv] at h
      | none =>
        simp only [hv] at h
        cases h
        exact hv

/-- Claim C5, witness: a concrete valid config is accepted. -/
theorem claim_C5_amended_witness : BindConfig.Validate okConfig = none :=
  (claim_C5_amended okConfig (.ok okConfig) okConfig).2 rfl

/-- Claim C6: temporary-account provisioning is a three-way split on the
number of keystore accounts: zero accounts creates and unlocks exactly
one new account, one account unlocks that same account without creating
any, and two or more accounts is an error with no account created or
unlocked. -/
theorem claim_C6 : ∀ (env : KeystoreEnv) (chainId : Nat) (wd newAcct acct : String),
    env.getwdRes = .ok wd →
    ((env.accounts = [] → env.newAccountRes = .ok newAcct → env.unlockRes = .ok () →
      (generateOrGetTempAccount env chainId).2 = .ok newAcct ∧
      (chainCalls (generateOrGetTempAccount env chainId).1).count
        (.newKeystoreAccount utils.Passwd) = 1 ∧
      .unlockAccount newAcct utils.Passwd ∈
        chainCalls (generateOrGetTempAccount env chainId).1) ∧
    (env.accounts = [acct] → env.unlockRes = .ok () →
      (generateOrGetTempAccount env chainId).2 = .ok acct ∧
      (∀ p, .newKeystoreAccount p ∉ chainCalls (generateOrGetTempAccount env chainId).1) ∧
      .unlockAccount acct utils.Passwd ∈
        chainCalls (generateOrGetTempAccount env chainId).1) ∧
    (2 ≤ env.accounts.length →
      (generateOrGetTempAccount env chainId).2 =
        .error ("expect only one or zero keystore file in " ++ wd ++ "/" ++ utils.BindKeystore) ∧
      (∀ p, .newKeystoreAccount p ∉ chainCalls (generateOrGetTempAccount env chainId).1) ∧
      (∀ a p, .unlockAccount a p ∉ chainCalls (generateOrGetTempAccount env chainId).1))) := by
  intro env chainId wd newAcct acct hw
  refine ⟨?_, ?_, ?_⟩
  · intro h0 h1 h2
    unfold generateOrGetTempAccount
    simp [hw, h0, h1, h2]
  · intro h0 h1
    unfold generateOrGetTempAccount
    simp [hw, h0, h1]
  · intro h0
    unfold generateOrGetTempAccount
    rcases ha : env.accounts with _ | ⟨a, _ | ⟨b, t⟩⟩
    · rw [ha] at h0
      simp at h0
    · rw [ha] at h0
      simp at h0
    · simp [hw, ha]

/-- Claim C6, witness: the three cases at concrete keystores. -/
theorem claim_C6_witness :
    (generateOrGetTempAccount ksZero 97).2 = .ok "0xnew" ∧
    (generateOrGetTempAccount ksOne 97).2 = .ok "0xtmp" ∧
    (generateOrGetTempAccount ksMany 97).2 =
      .error ("expect only one or zero keystore file in " ++ "/wd" ++ "/" ++ utils.BindKeystore) := by
  refine ⟨((claim_C6 ksZero 97 "/wd" "0xnew" "x" rfl).1 rfl rfl rfl).1,
    (((claim_C6 ksOne 97 "/wd" "x" "0xtmp" rfl).2.1 rfl rfl)).1,
    ((claim_C6 ksMany 97 "/wd" "x" "y" rfl).2.2 (by decide)).1⟩

/-- Claim C7: the refund sends exactly `balance - gasReserve` to the
supplied refund address, and every amount it ever sends is the full
spendable balance, sent to that address, and never negative. -/
theorem claim_C7 : ∀ (balance gasReserve : Int) (sendRes : Except String Nat)
    (refundAddr : String) (chainId : Nat),
    (0 ≤ balance - gasReserve →
      .call (.sendAllRestBNB refundAddr (balance - gasReserve)) ∈
        RefundRestBNB ⟨balance, gasReserve, sendRes⟩ refundAddr chainId) ∧
    (∀ recipient amount,
      .call (.sendAllRestBNB recipient amount) ∈
          RefundRestBNB ⟨balance, gasReserve, sendRes⟩ refundAddr chainId →
      recipient = refundAddr ∧ amount = balance - gasReserve ∧ 0 ≤ amount) := by
  intro balance gasReserve sendRes refundAddr chainId
  obtain ⟨u0, hu0⟩ := printTx_isOut "Refund txHash" (toString (0 : Nat)) chainId
  unfold RefundRestBNB sendAllRestBNBAmount
  dsimp only
  by_cases h : balance - gasReserve < 0
  · rw [if_pos h, hu0]
    refine ⟨fun h0 => absurd h (by omega), ?_⟩
    intro recipient amount hmem
    simp at hmem
  · rw [if_neg h]
    cases hs : sendRes with
    | error e =>
      dsimp only
      rw [hu0]
      refine ⟨fun _ => by simp, ?_⟩
      intro recipient amount hmem
      simp at hmem
      obtain ⟨h1, h2⟩ := hmem
      refine ⟨h1, h2, by omega⟩
    | ok tx =>
      obtain ⟨u1, hu1⟩ := printTx_isOut "Refund txHash" (toString tx) chainId
      dsimp only
      rw [hu1]
      refine ⟨fun _ => by simp, ?_⟩
      intro recipient amount hmem
      simp at hmem
      obtain ⟨h1, h2⟩ := hmem
      refine ⟨h1, h2, by omega⟩

/-- Claim C7, witness: balance 10, reserve 3 sends exactly 7. -/
theorem claim_C7_witness :
    .call (.sendAllRestBNB "0xrefund" 7) ∈ RefundRestBNB ⟨10, 3, .ok 41⟩ "0xrefund" 97 := by
  have h := (claim_C7 10 3 (.ok 41) "0xrefund" 97).1 (by decide)
  simpa using h

/-- Claim C8: network resolution depends only on the network-type flag:
`testnet` yields chain id 97 and the testnet RPC endpoint, `mainnet`
yields 56 and the mainnet endpoint, and any other value — or an empty
operation — prints the usage message and returns before any RPC dial. -/
theorem claim_C8 : ∀ (env : MainEnv) (flags : Flags),
    (flags.networkType = utils.TestNet → flags.operation ≠ "" →
      resolveNetwork flags.networkType flags.operation = some (utils.TestnetRPC, 97)) ∧
    (flags.networkType = utils.Mainnet → flags.operation ≠ "" →
      resolveNetwork flags.networkType flags.operation = some (utils.MainnnetRPC, 56)) ∧
    ((flags.networkType ≠ utils.TestNet ∧ flags.networkType ≠ utils.Mainnet) ∨
        flags.operation = "" →
      resolveNetwork flags.networkType flags.operation = none ∧
      mainRun env flags = [.out usageMessage]) := by
  intro env flags
  refine ⟨?_, ?_, ?_⟩
  · intro hn ho
    unfold resolveNetwork
    rw [hn]
    rw [if_neg (by simp [ho]), if_neg (by decide)]
    rfl
  · intro hn ho
    unfold resolveNetwork
    rw [hn]
    rw [if_neg (by simp [ho]), if_pos rfl]
    rfl
  · intro hcond
    have hnone : resolveNetwork flags.networkType flags.operation = none := by
      unfold resolveNetwork
      rw [if_pos hcond]
    refine ⟨hnone, ?_⟩
    unfold mainRun
    rw [hnone]

/-- Claim C8, witness: concrete resolutions and a usage run. -/
theorem claim_C8_witness :
    resolveNetwork utils.TestNet utils.InitKey = some (utils.TestnetRPC, 97) ∧
    resolveNetwork utils.Mainnet utils.InitKey = some (utils.MainnnetRPC, 56) ∧
    mainRun baseEnv ⟨"regtest", utils.InitKey, "abc", "abc", 0, "1"⟩ = [.out usageMessage] := by
  refine ⟨(claim_C8 baseEnv ⟨utils.TestNet, utils.InitKey, "abc", "abc", 0, "1"⟩).1 rfl (by decide),
    (claim_C8 baseEnv ⟨utils.Mainnet, utils.InitKey, "abc", "abc", 0, "1"⟩).2.1 rfl (by decide),
    ((claim_C8 baseEnv ⟨"regtest", utils.InitKey, "abc", "abc", 0, "1"⟩).2.2
      (Or.inl (by decide))).2⟩

theorem mainMaxCalls_pw (env : MainEnv) (flags : Flags) (p acct : String) :
    (ChainCall.newKeystoreAccount p ∈ mainMaxCalls env flags → p = utils.Passwd) ∧
    (ChainCall.unlockAccount acct p ∈ mainMaxCalls env flags → p = utils.Passwd) := by
  unfold mainMaxCalls gtMaxCalls deployMaxCalls bindMaxCalls transferMaxCalls
    refundMaxCalls ledgerMaxCalls ledgerBindMaxCalls
  cases resolveNetwork flags.networkType flags.operation with
  | none => simp
  | some pr =>
    rcases pr with ⟨rpcUrl, chainId⟩
    by_cases h1 : flags.operation = utils.InitKey
    · simp [h1]
    simp only [if_neg h1]
    by_cases h2 : flags.operation = utils.DeployContract
    · simp [h2]
    simp only [if_neg h2]
    by_cases h3 : flags.operation = utils.ApproveBind
    · simp [h3]
    simp only [if_neg h3]
    by_cases h4 : flags.operation = utils.RefundRestBNB
    · simp [h4]
    simp only [if_neg h4]
    by_cases h5 : flags.operation = utils.DeployTransferRefund
    · simp [h5]
    simp only [if_neg h5]
    by_cases h6 : flags.operation = utils.ApproveBindFromLedger
    · simp [h6]
    simp [if_neg h6]

/-- Claim C9: every temporary keystore account is created and unlocked
with the fixed hard-coded password `"12345678"`; no run obtains a
password from flags or configuration. -/
theorem claim_C9 : ∀ (env : MainEnv) (flags : Flags) (p acct : String),
    (.call (.newKeystoreAccount p) ∈ mainRun env flags → p = utils.Passwd) ∧
    (.call (.unlockAccount acct p) ∈ mainRun env flags → p = utils.Passwd) := by
  intro env flags p acct
  have hsub := mainRun_calls_sublist env flags
  have hpw := mainMaxCalls_pw env flags p acct
  constructor
  · intro hmem
    exact hpw.1 (hsub.subset (List.mem_filterMap.mpr ⟨_, hmem, rfl⟩))
  · intro hmem
    exact hpw.2 (hsub.subset (List.mem_filterMap.mpr ⟨_, hmem, rfl⟩))

/-- Claim C9, witness: the init-key run on an empty keystore creates an
account, and the password it uses is the hard-coded one. -/
theorem claim_C9_witness :
    .call (.newKeystoreAccount "12345678") ∈ mainRun envZero (setOp baseFlags utils.InitKey) ∧
    "12345678" = utils.Passwd :=
  ⟨by decide, (claim_C9 envZero (setOp baseFlags utils.InitKey) "12345678" "0xnew").1 (by decide)⟩

/-- Claim C10: `openLedger` only ever uses the first detected wallet, and
derives `m/44'/60'/(0'+i)/0/0`: the hardened account component is the
base one plus the index (with `uint32` wrap-around, so exactly `i'` for
every index below `2^31`), and the change and address-index components
stay 0 for every index. -/
theorem claim_C10 : ∀ (env : LedgerEnv) (index : Nat) (wallet acct : String)
    (path : List Nat),
    ((openLedger env index).2 = .ok (wallet, acct) → env.wallets.head? = some wallet) ∧
    derivePath index = [0x80000000 + 44, 0x80000000 + 60, (0x80000000 + index) % 2 ^ 32, 0, 0] ∧
    (index < 2 ^ 31 → (derivePath index).getD 2 0 = 0x80000000 + index) ∧
    (derivePath index).getD 3 0 = 0 ∧
    (derivePath index).getD 4 0 = 0 ∧
    (.call (.ledgerDerive path) ∈ (openLedger env index).1 → path = derivePath index) := by
  intro env index wallet acct path
  have hpath : derivePath index =
      [0x80000000 + 44, 0x80000000 + 60, (0x80000000 + index) % 2 ^ 32, 0, 0] := by
    simp [derivePath, ledgerBasePath]
  refine ⟨?_, hpath, ?_, ?_, ?_, ?_⟩
  · intro h
    unfold openLedger at h
    rcases env with ⟨hub, ws, cl, opn, st, dv⟩
    dsimp only at h
    cases hub <;> rcases ws with _ | ⟨w, t⟩ <;> cases opn <;> cases st <;> cases dv <;>
      simp_all
  · intro hidx
    rw [hpath]
    have : (0x80000000 + index) % 2 ^ 32 = 0x80000000 + index := by omega
    simpa [List.getD] using this
  · rw [hpath]; rfl
  · rw [hpath]; rfl
  · intro h
    unfold openLedger at h
    rcases env with ⟨hub, ws, cl, opn, st, dv⟩
    dsimp only at h
    cases hub <;> rcases ws with _ | ⟨w, t⟩ <;> cases cl <;> cases opn <;>
      cases st <;> cases dv <;> simp_all

/-- Claim C10, witness: with one wallet and index 5, the first wallet is
used and the hardened account component is `5'`. -/
theorem claim_C10_witness :
    okLedger.wallets.head? = some "wallet0" ∧
    (derivePath 5).getD 2 0 = 0x80000000 + 5 := by
  have h := claim_C10 okLedger 5 "wallet0" "0xledgeracct" (derivePath 5)
  exact ⟨h.1 rfl, h.2.2.1 (by decide)⟩

/-- Claim C1: the three address-flag checks in `main` evaluated.  The
code rejects an address exactly when it starts with `0x` OR has length
42, so the well-formed address `goodAddr` (which the claim says must be
accepted) is rejected by all three operations, while the ill-formed
`"abc"` (which the claim says must be rejected) sails through the check
of the refund operation. -/
theorem claim_C1_code_eval :
    (strStartsWith goodAddr "0x" = true ∧ goodAddr.length = 42) ∧
    mainRun baseEnv (setOp goodAddrFlags utils.ApproveBind) =
      [.call (.dialRPC utils.TestnetRPC), .out "Invalid bep20 contract address"] ∧
    mainRun baseEnv (setOp goodAddrFlags utils.RefundRestBNB) =
      [.call (.dialRPC utils.TestnetRPC), .out "Invalid refund address"] ∧
    mainRun baseEnv (setOp goodAddrFlags utils.ApproveBindFromLedger) =
      [.call (.dialRPC utils.TestnetRPC), .out "Invalid bep20 contract address"] ∧
    (strStartsWith "abc" "0x" = false ∧ "abc".length ≠ 42) ∧
    mainRun baseEnv (setOp baseFlags utils.RefundRestBNB) ≠
      [.call (.dialRPC utils.TestnetRPC), .out "Invalid refund address"] := by
  refine ⟨⟨by decide, by decide⟩, by decide, by decide, by decide,
    ⟨by decide, by decide⟩, by decide⟩

/-- Claim C2: the approve-bind workflow reads the total supply, approves
the fixed token manager for exactly that supply, submits `approveBind`,
fetches its receipt, and then branches on the receipt status: on failure
it submits `rejectBind`, reports the reject receipt status and never
submits a transfer-ownership transaction; on success it transfers
ownership to the config's ledger account and never submits
`rejectBind`. -/
theorem claim_C2 : ∀ (env : BindEnv) (cfg : BindConfig)
    (tempAccount bep20ContractAddr : String) (chainId ts atx btx st : Nat),
    env.newBep20Res = .ok () →
    env.totalSupplyRes = .ok ts →
    env.approveRes = .ok atx →
    env.approveBindRes = .ok btx →
    env.approveBindReceiptRes = .ok st →
    ((st ≠ 1 → ∀ rtx rst, env.rejectBindRes = .ok rtx → env.rejectBindReceiptRes = .ok rst →
      chainCalls (ApproveBindAndTransferOwnershipAndRestBalanceBackToLedgerAccount
          env cfg tempAccount bep20ContractAddr chainId) =
        [.newBep20, .totalSupply, .approve tokenManager ts, .newTokenManager,
         .approveBind bep20ContractAddr cfg.BEP2Symbol, .approveBindReceipt,
         .rejectBind bep20ContractAddr cfg.BEP2Symbol, .rejectBindReceipt] ∧
      .out ("reject bind tx recipient status " ++ toString rst) ∈
        ApproveBindAndTransferOwnershipAndRestBalanceBackToLedgerAccount
          env cfg tempAccount bep20ContractAddr chainId ∧
      (∀ owner, ChainCall.transferOwnership owner ∉
        chainCalls (ApproveBindAndTransferOwnershipAndRestBalanceBackToLedgerAccount
          env cfg tempAccount bep20ContractAddr chainId))) ∧
    (st = 1 → ∀ otx, env.newOwnableRes = .ok () → env.transferOwnershipRes = .ok otx →
      chainCalls (ApproveBindAndTransferOwnershipAndRestBalanceBackToLedgerAccount
          env cfg tempAccount bep20ContractAddr chainId) =
        [.newBep20, .totalSupply, .approve tokenManager ts, .newTokenManager,
         .approveBind bep20ContractAddr cfg.BEP2Symbol, .approveBindReceipt,
         .newOwnable, .transferOwnership cfg.LedgerAccount] ∧
      (∀ a s, ChainCall.rejectBind a s ∉
        chainCalls (ApproveBindAndTransferOwnershipAndRestBalanceBackToLedgerAccount
          env cfg tempAccount bep20ContractAddr chainId)))) := by
  intro env cfg tempAccount bep20ContractAddr chainId ts atx btx st h1 h2 h3 h4 h5
  unfold ApproveBindAndTransferOwnershipAndRestBalanceBackToLedgerAccount
  rw [h1, h2, h3, h4, h5]
  simp only [onErr_ok]
  constructor
  · intro hst rtx rst h6 h7
    rw [if_pos hst, h6, h7]
    simp only [onErr_ok]
    refine ⟨by simp, by simp, by simp⟩
  · intro hst otx h6 h7
    rw [if_neg (by simp [hst]), h6, h7]
    simp only [onErr_ok]
    refine ⟨by simp, by simp⟩

/-- Claim C2, witness: a concrete failed bind receipt leads to
reject-bind, its status report, and no ownership transfer. -/
theorem claim_C2_witness :
    chainCalls (ApproveBindAndTransferOwnershipAndRestBalanceBackToLedgerAccount
        bindFailEnv okConfig "0xtmp" "abc" 97) =
      [.newBep20, .totalSupply, .approve tokenManager 1000, .newTokenManager,
       .approveBind "abc" okConfig.BEP2Symbol, .approveBindReceipt,
       .rejectBind "abc" okConfig.BEP2Symbol, .rejectBindReceipt] ∧
    .out ("reject bind tx recipient status " ++ toString 1) ∈
      ApproveBindAndTransferOwnershipAndRestBalanceBackToLedgerAccount
        bindFailEnv okConfig "0xtmp" "abc" 97 ∧
    (∀ owner, ChainCall.transferOwnership owner ∉
      chainCalls (ApproveBindAndTransferOwnershipAndRestBalanceBackToLedgerAccount
        bindFailEnv okConfig "0xtmp" "abc" 97)) := by
  have h := claim_C2 bindFailEnv okConfig "0xtmp" "abc" 97 1000 11 12 0 rfl rfl rfl rfl rfl
  exact h.1 (by decide) 13 1 rfl rfl

theorem deploy_ok_calls (env : DeployEnv) (acct data : String) (chainId : Nat)
    (c : String)
    (h : (DeployContractFromTempAccount env acct data chainId).2 = .ok c) :
    chainCalls (DeployContractFromTempAccount env acct data chainId).1 =
      [.deployBEP20Contract, .deployReceipt] := by
  unfold DeployContractFromTempAccount at h ⊢
  rcases env with ⟨dt, rc⟩
  cases dt <;> cases rc <;> by_cases hv : validHex data <;> simp_all

theorem gtdep_calls (ksenv : KeystoreEnv) (depenv : DeployEnv) (acct data : String)
    (chainId : Nat) :
    ∀ c, c ∈ chainCalls (generateOrGetTempAccount ksenv chainId).1 ++
        chainCalls (DeployContractFromTempAccount depenv acct data chainId).1 →
      c = .newKeystoreAccount utils.Passwd ∨ c = .unlockAccount (gtAcct ksenv) utils.Passwd ∨
      c = .deployBEP20Contract ∨ c = .deployReceipt := by
  intro c hc
  rcases List.mem_append.mp hc with h | h
  · have hm := (gt_calls_sublist ksenv chainId).subset h
    simp only [gtMaxCalls, List.mem_cons, List.mem_singleton] at hm
    tauto
  · have hm := (deploy_calls_sublist depenv acct data chainId).subset h
    simp only [deployMaxCalls, List.mem_cons, List.mem_singleton] at hm
    tauto

theorem refund_send_mem (env : RefundEnv) (addr : String) (chainId : Nat)
    (h : 0 ≤ refundAmt env) :
    .call (.sendAllRestBNB addr (refundAmt env)) ∈ RefundRestBNB env addr chainId := by
  unfold RefundRestBNB sendAllRestBNBAmount refundAmt at *
  rw [if_neg (by omega)]
  cases env.sendRes <;> simp

/-- Claim C3, counterexample: in the composite
`deploy_transferTokenAndOwnership_refund` run `envC3`, the transfer
stage fails (its total-supply read prints the error `boom`), yet the
refund step is still performed afterwards — contradicting the claim that
a failing step prevents every later step. -/
theorem claim_C3_counterexample :
    .errOut "boom" ∈ mainRun envC3 (setOp baseFlags utils.DeployTransferRefund) ∧
    .call (.sendAllRestBNB goodAddr 7) ∈
      afterError (mainRun envC3 (setOp baseFlags utils.DeployTransferRefund)) :=
  ⟨by decide, by decide⟩

/-- Claim C3 (amended): the composite operation performs deployment,
then token-and-ownership transfer, then refund, strictly in that order;
if config reading, temp-account provisioning or deployment fails, none
of the later steps run; but a failure inside the transfer stage only
skips the rest of that stage — the refund is still performed. -/
theorem claim_C3_amended : ∀ (env : MainEnv) (flags : Flags) (cfg : BindConfig)
    (tempAccount contractAddr e : String) (ts ttx otx stx : Nat),
    flags.operation = utils.DeployTransferRefund →
    flags.networkType = utils.TestNet →
    env.dialRes = .ok () →
    ((readConfigData env.configRaw = .error e →
      mainRun env flags = [.call (.dialRPC utils.TestnetRPC), .errOut e]) ∧
    (readConfigData env.configRaw = .ok cfg →
      ((generateOrGetTempAccount env.ks 97).2 = .error e →
        mainRun env flags =
          .call (.dialRPC utils.TestnetRPC) ::
            (generateOrGetTempAccount env.ks 97).1 ++ [.errOut e]) ∧
      ((generateOrGetTempAccount env.ks 97).2 = .ok tempAccount →
        (((DeployContractFromTempAccount env.deploy tempAccount cfg.ContractData 97).2 = .error e →
          chainCalls (mainRun env flags) =
            .dialRPC utils.TestnetRPC ::
              chainCalls (generateOrGetTempAccount env.ks 97).1 ++
              chainCalls (DeployContractFromTempAccount env.deploy tempAccount
                cfg.ContractData 97).1 ∧
          (∀ r a, ChainCall.transferToken r a ∉ chainCalls (mainRun env flags)) ∧
          (∀ o, ChainCall.transferOwnership o ∉ chainCalls (mainRun env flags)) ∧
          (∀ r a, ChainCall.sendAllRestBNB r a ∉ chainCalls (mainRun env flags))) ∧
        ((DeployContractFromTempAccount env.deploy tempAccount cfg.ContractData 97).2 =
            .ok contractAddr →
          ((0 ≤ refundAmt env.refund →
            .call (.sendAllRestBNB cfg.LedgerAccount (refundAmt env.refund)) ∈
              mainRun env flags) ∧
          (env.transfer.newBep20Res = .ok () → env.transfer.totalSupplyRes = .ok ts →
            env.transfer.transferRes = .ok ttx → env.transfer.newOwnableRes = .ok () →
            env.transfer.transferOwnershipRes = .ok otx → 0 ≤ refundAmt env.refund →
            env.refund.sendRes = .ok stx →
            chainCalls (mainRun env flags) =
              .dialRPC utils.TestnetRPC ::
                chainCalls (generateOrGetTempAccount env.ks 97).1 ++
                [.deployBEP20Contract, .deployReceipt,
                 .newBep20, .totalSupply, .transferToken cfg.LedgerAccount ts,
                 .newOwnable, .transferOwnership cfg.LedgerAccount,
                 .sendAllRestBNB cfg.LedgerAccount (refundAmt env.refund)]))))))) := by
  intro env flags cfg tempAccount contractAddr e ts ttx otx stx hop hnet hdial
  have hres : resolveNetwork flags.networkType flags.operation =
      some (utils.TestnetRPC, 97) := by
    rw [hnet, hop]; decide
  unfold mainRun
  rw [hres, hdial]
  simp only [onErr_ok]
  rw [hop]
  rw [if_neg (by decide), if_neg (by decide), if_neg (by decide), if_neg (by decide),
    if_pos rfl]
  constructor
  · intro hc
    rw [hc]
  · intro hc
    rw [hc]
    dsimp only
    constructor
    · intro hgt
      simp [hgt]
    · intro hgt
      rw [hgt]
      dsimp only
      constructor
      · intro hdep
        rw [hdep]
        dsimp only
        refine ⟨by simp, ?_, ?_, ?_⟩
        · intro r a hmem
          simp only [chainCalls_cons_call, chainCalls_cons_errOut, chainCalls_append,
            chainCalls_nil, List.append_nil, List.mem_cons] at hmem
          rcases hmem with h | h
          · simp at h
          · rcases gtdep_calls env.ks env.deploy tempAccount cfg.ContractData 97 _ h with
              h' | h' | h' | h' <;> simp at h'
        · intro o hmem
          simp only [chainCalls_cons_call, chainCalls_cons_errOut, chainCalls_append,
            chainCalls_nil, List.append_nil, List.mem_cons] at hmem
          rcases hmem with h | h
          · simp at h
          · rcases gtdep_calls env.ks env.deploy tempAccount cfg.ContractData 97 _ h with
              h' | h' | h' | h' <;> simp at h'
        · intro r a hmem
          simp only [chainCalls_cons_call, chainCalls_cons_errOut, chainCalls_append,
            chainCalls_nil, List.append_nil, List.mem_cons] at hmem
          rcases hmem with h | h
          · simp at h
          · rcases gtdep_calls env.ks env.deploy tempAccount cfg.ContractData 97 _ h with
              h' | h' | h' | h' <;> simp at h'
      · intro hdep
        rw [hdep]
        dsimp only
        constructor
        · intro hamt
          have hm := refund_send_mem env.refund cfg.LedgerAccount 97 hamt
          simp [hm]
        · intro ht1 ht2 ht3 ht4 ht5 hamt hstx
          have htr : chainCalls (TransferTokenAndOwnership env.transfer
              cfg.LedgerAccount contractAddr 97) =
              [.newBep20, .totalSupply, .transferToken cfg.LedgerAccount ts,
               .newOwnable, .transferOwnership cfg.LedgerAccount] := by
            unfold TransferTokenAndOwnership
            rw [ht1, ht2, ht3, ht4, ht5]
            simp
          have hrf : chainCalls (RefundRestBNB env.refund cfg.LedgerAccount 97) =
              [.sendAllRestBNB cfg.LedgerAccount (refundAmt env.refund)] := by
            unfold RefundRestBNB sendAllRestBNBAmount refundAmt at *
            rw [if_neg (by omega), hstx]
            simp
          simp [htr, hrf, deploy_ok_calls env.deploy tempAccount cfg.ContractData 97
            contractAddr hdep]

/-- Claim C3, witness: the all-success composite run performs its calls
in deploy, transfer, refund order. -/
theorem claim_C3_amended_witness :
    chainCalls (mainRun baseEnv (setOp baseFlags utils.DeployTransferRefund)) =
      .dialRPC utils.TestnetRPC ::
        chainCalls (generateOrGetTempAccount baseEnv.ks 97).1 ++
        [.deployBEP20Contract, .deployReceipt,
         .newBep20, .totalSupply, .transferToken okConfig.LedgerAccount 1000,
         .newOwnable, .transferOwnership okConfig.LedgerAccount,
         .sendAllRestBNB okConfig.LedgerAccount (refundAmt baseEnv.refund)] := by
  have h := claim_C3_amended baseEnv (setOp baseFlags utils.DeployTransferRefund) okConfig
    "0xtmp" "0xcontract" "unused" 1000 31 32 41 rfl rfl rfl
  exact ((((h.2 rfl).2 rfl).2 rfl).2 rfl rfl rfl rfl rfl (by decide) rfl)

/-- Claim C4, counterexample: in the refund operation with an
underfunded temporary account, the failed send prints its error and yet
the operation still prints the refund explorer-url line and the
separator afterwards (`RefundRestBNB` has no `return` in its error
branch), contradicting the claim that no output belonging to later
steps follows a step's error. -/
theorem claim_C4_counterexample :
    .errOut "insufficient balance to refund" ∈
      mainRun envC4 (setOp baseFlags utils.RefundRestBNB) ∧
    afterError (mainRun envC4 (setOp baseFlags utils.RefundRestBNB)) =
      [.out "Refund txHash: https://testnet.bscscan.com/tx/0", .out bannerLine] :=
  ⟨by decide, by decide⟩

/-- Claim C4 (amended): every step's error is printed and aborts the
rest of the operation, with exactly these exceptions visible in the
code: `refundRestBNB` still prints its explorer-url line and separator
after a failed send; in `deploy_transferTokenAndOwnership_refund` a
failure inside the transfer stage does not prevent the refund step (but
any chain call made after an error is that refund send); and `openLedger`
prints but ignores an error from closing the wallet before reopening it
(with the close succeeding, the ledger operation aborts cleanly).  No
call site is ever run twice, so no step is retried. -/
theorem claim_C4_amended : ∀ (env : MainEnv) (flags : Flags),
    afterError (mainRun env (setOp flags utils.InitKey)) = [] ∧
    afterError (mainRun env (setOp flags utils.DeployContract)) = [] ∧
    afterError (mainRun env (setOp flags utils.ApproveBind)) = [] ∧
    (afterError (mainRun env (setOp flags utils.RefundRestBNB)) = [] ∨
      ∃ u, afterError (mainRun env (setOp flags utils.RefundRestBNB)) =
        [.out u, .out bannerLine]) ∧
    (∀ c ∈ chainCalls (afterError (mainRun env (setOp flags utils.DeployTransferRefund))),
      ∃ recipient amount, c = ChainCall.sendAllRestBNB recipient amount) ∧
    (env.ledger.closeRes = .ok () →
      afterError (mainRun env (setOp flags utils.ApproveBindFromLedger)) = []) ∧
    (chainCalls (mainRun env flags)).Nodup := by
  intro env flags
  exact ⟨afterError_mainRun_initKey env _ rfl,
    afterError_mainRun_deployContract env _ rfl,
    afterError_mainRun_approveBind env _ rfl,
    afterError_mainRun_refund env _ rfl,
    afterError_mainRun_composite env _ rfl,
    fun hclose => afterError_mainRun_ledger env _ rfl hclose,
    mainRun_calls_nodup env flags⟩

/-- Claim C4, witness: concrete abort-cleanly facts and a duplicate-free
call list for a run that performs every step. -/
theorem claim_C4_amended_witness :
    afterError (mainRun baseEnv (setOp baseFlags utils.InitKey)) = [] ∧
    afterError (mainRun baseEnv (setOp baseFlags utils.ApproveBindFromLedger)) = [] ∧
    (chainCalls (mainRun baseEnv (setOp baseFlags utils.DeployTransferRefund))).Nodup := by
  have h := claim_C4_amended baseEnv baseFlags
  have h2 := claim_C4_amended baseEnv (setOp baseFlags utils.DeployTransferRefund)
  exact ⟨h.1, h.2.2.2.2.2.1 rfl, h2.2.2.2.2.2.2⟩

end TokenBindTool
